import Mathlib

/-!
Verification of the wv-forge build/publish orchestrator
(`build_locally.py`, `scripts/upload_to_prefix.py`, `scripts/upload_to_s3.py`).

Shallow embedding conventions:
- Python strings are modelled as `List Char` (`PyStr`); recipe and
  configuration documents are modelled as their list of lines (the result of
  splitting the file content on the newline character).
- The filesystem seen by the completion check is modelled as a function from
  a platform-subdirectory name to `Option` of its list of filenames
  (`none` means the subdirectory does not exist).
- The remote channel manifest is modelled as a function from a platform
  subdirectory name to the list of filenames present remotely (the code's
  `remote_packages.get(subdir, set())` lookup over the per-subdir fetched
  repodata).
- HTTP behaviour for one upload is modelled as a field of the artifact:
  `status = some n` is an HTTP response with status `n`, `none` is a network
  timeout/exception (both caught by the code and turned into `False`).
- `sys.exit(n)` before the Docker dispatch is modelled as `earlyExit n`;
  an uncaught Python exception (e.g. `ValueError` from `int()`) is `crash`.
- ASCII text is assumed throughout (Python `str.strip`, `str.lower`, `\s`
  and `int()` are modelled on their ASCII behaviour; numeric literals with
  underscore digit separators are not modelled).
-/

/-- A Python string, modelled as its list of characters. -/
abbrev PyStr := List Char

/-- Embed a Lean string literal as a `PyStr`. -/
def pstr (s : String) : PyStr := s.data

/-- Python whitespace for `str.strip` / regex `\s` (ASCII): space, tab,
newline, carriage return, vertical tab, form feed. -/
def pyIsSpace (c : Char) : Bool :=
  c = ' ' || c = '\t' || c = '\n' || c = '\r' || c = Char.ofNat 11 || c = Char.ofNat 12

/-- Python `str.strip()`: remove leading and trailing whitespace. -/
def pyStrip (s : PyStr) : PyStr :=
  ((s.dropWhile pyIsSpace).reverse.dropWhile pyIsSpace).reverse

/-- Python `str.lower()` (ASCII). -/
def pyLower (s : PyStr) : PyStr := s.map Char.toLower

/-- Python `str.split(sep)` for a one-character separator, all occurrences:
`"".split(",") = [""]`, `"a,,b".split(",") = ["a","","b"]`. -/
def pySplitChar : PyStr → Char → List PyStr
  | [], _ => [[]]
  | c :: rest, d =>
    if c = d then [] :: pySplitChar rest d
    else
      match pySplitChar rest d with
      | s :: ss => (c :: s) :: ss
      | [] => [[c]]

/-- Python `str.split(sep, 1)` for a one-character separator: split at the
first occurrence only; `none` when the separator does not occur. -/
def splitOnceChar : PyStr → Char → Option (PyStr × PyStr)
  | [], _ => none
  | c :: rest, d =>
    if c = d then some ([], rest)
    else (splitOnceChar rest d).map (fun pr => (c :: pr.1, pr.2))

/-- Value of a nonempty all-digit string, `none` otherwise. -/
def digitsVal (s : PyStr) : Option Nat :=
  match s with
  | [] => none
  | _ =>
    s.foldl
      (fun acc c =>
        match acc with
        | some n => if c.isDigit then some (n * 10 + (c.toNat - 48)) else none
        | none => none)
      (some 0)

/-- Python `int(s)` on ASCII input: strips whitespace, allows one leading
sign, then requires a nonempty digit run; `none` models `ValueError`. -/
def pyInt (s0 : PyStr) : Option Int :=
  let s := pyStrip s0
  match s with
  | '-' :: rest => (digitsVal rest).map (fun n => -(n : Int))
  | '+' :: rest => (digitsVal rest).map (fun n => (n : Int))
  | _ => (digitsVal s).map (fun n => (n : Int))

/-- Python `range(a, b)` as a list of integers (empty when `b ≤ a`). -/
def intRange (a b : Int) : List Int :=
  (List.range (b - a).toNat).map (fun k => a + k)

/-- Substring test (Python `needle in hay`). -/
def isSubOf (needle : PyStr) : PyStr → Bool
  | [] => needle.isPrefixOf []
  | c :: rest => needle.isPrefixOf (c :: rest) || isSubOf needle rest

/-- Build strategy of a package, the codomain of `detect_build_type`
(`"noarch"`, `"variant"`, `"standard"` in the source). -/
inductive BuildType where
  | noarch
  | variant
  | standard
deriving DecidableEq

/-- A buildable package as discovered by `discover_packages`
(dataclass `Package` in `build_locally.py`). -/
structure Package where
  name : PyStr
  recipe_dir : PyStr
  build_type : BuildType
deriving DecidableEq

/-- Placeholder package used only as the default of total list indexing. -/
def dummyPackage : Package := ⟨[], [], BuildType.standard⟩

/-- One line matching the regex fragment `\s+noarch:` anchored at its own
start: a nonempty whitespace run followed by the literal `noarch:`. -/
def hasNoarchLine (l : PyStr) : Bool :=
  decide (l.takeWhile pyIsSpace ≠ []) && (pstr "noarch:").isPrefixOf (l.dropWhile pyIsSpace)

/-- Whether `re.search(r"^\s+noarch:", content, re.MULTILINE)` matches, for
a document given as its lines. Because `\s` also matches the newline, the
regex matches either a line whose `noarch:` field is indented (case one) or
an unindented `noarch:` line immediately preceded by a whitespace-only line
(case two: the `^` anchors on the previous line and `\s+` crosses the
newline). -/
def hasNoarchMarker (lines : List PyStr) : Bool :=
  lines.any hasNoarchLine ||
    (lines.zip lines.tail).any
      (fun pr => pr.1.all pyIsSpace && (pstr "noarch:").isPrefixOf pr.2)

/-- Whether the document contains the variant-axis marker `cuda_version`
(Python `"cuda_version" in content`; the needle has no newline so it lies
within a single line). -/
def hasCudaMarker (lines : List PyStr) : Bool :=
  lines.any (fun l => isSubOf (pstr "cuda_version") l)

/-- `detect_build_type` from `build_locally.py`: noarch marker first, then
the `cuda_version` variant marker, else standard. -/
def detect_build_type (lines : List PyStr) : BuildType :=
  if hasNoarchMarker lines then BuildType.noarch
  else if hasCudaMarker lines then BuildType.variant
  else BuildType.standard

/-- Stripped line skipped by the variant counter: comment or blank
(`stripped.startswith("#") or not stripped`). -/
def isCommentOrBlank (s : PyStr) : Bool :=
  (pstr "#").isPrefixOf s || s.isEmpty

/-- Stripped line counting as one list item (`stripped.startswith("- ")`). -/
def isItemLine (s : PyStr) : Bool :=
  (pstr "- ").isPrefixOf s

/-- Stripped line closing the current axis: ends in a colon and is not an
item line (the item test has priority in the source's `if`/`elif`). -/
def isHeaderLine (s : PyStr) : Bool :=
  !isItemLine s && (pstr ":").isSuffixOf s

/-- The line loop of `get_variant_count`: threads the accumulated axis
sizes (`lists`) and the current axis's item count (`current`), pushing
`current` when positive at each axis header and at end of input. -/
def variantLoop : List PyStr → List Nat → Nat → List Nat
  | [], lists, current => if 0 < current then lists ++ [current] else lists
  | line :: rest, lists, current =>
    let s := pyStrip line
    if isCommentOrBlank s then variantLoop rest lists current
    else if isItemLine s then variantLoop rest lists (current + 1)
    else if (pstr ":").isSuffixOf s then
      variantLoop rest (if 0 < current then lists ++ [current] else lists) 0
    else variantLoop rest lists current

/-- `get_variant_count` from `build_locally.py`. The argument is `none`
when `variants.yaml` does not exist, otherwise `some` of its lines; the
result is the product of the collected axis sizes. -/
def get_variant_count : Option (List PyStr) → Nat
  | none => 1
  | some lines => (variantLoop lines [] 0).foldl (· * ·) 1

/-- Effective lines of a variant configuration: stripped, with blank and
comment lines removed (written from the claim for the refinement proof). -/
def effLines (lines : List PyStr) : List PyStr :=
  (lines.map pyStrip).filter (fun s => !isCommentOrBlank s)

/-- Split effective lines into axis segments: a header line closes the
segment collected before it; returns the first segment and the later ones. -/
def splitAxesCore : List PyStr → List PyStr × List (List PyStr)
  | [] => ([], [])
  | s :: rest =>
    let pr := splitAxesCore rest
    if isHeaderLine s then ([], pr.1 :: pr.2) else (s :: pr.1, pr.2)

/-- All axis segments of a variant configuration (always nonempty). -/
def splitAxes (ls : List PyStr) : List (List PyStr) :=
  (splitAxesCore ls).1 :: (splitAxesCore ls).2

/-- Number of list items collected by one axis segment. -/
def segItemCount (seg : List PyStr) : Nat :=
  (seg.filter isItemLine).length

/-- Variant cardinality as described by the specification: the product of
the per-axis item counts, axes with zero items excluded, absent
configuration giving one. -/
def spec_variant_count : Option (List PyStr) → Nat
  | none => 1
  | some lines =>
    (((splitAxes (effLines lines)).map segItemCount).filter (fun n => 0 < n)).foldl (· * ·) 1

/-- Whether a filename matches the glob `name-*.conda`
(`subdir.glob(f"{pkg.name}-*.conda")` in `is_package_built`): it decomposes
as the unit name, a dash, an arbitrary middle, and the archive extension. -/
def matches_artifact (name : PyStr) (f : PyStr) : Bool :=
  (name ++ ['-']).isPrefixOf f && (pstr ".conda").isSuffixOf (f.drop (name.length + 1))

/-- Platform subdirectory used by the completion check: `noarch` for noarch
units, the build platform `linux-64` otherwise. -/
def platform_subdir (pkg : Package) : PyStr :=
  if pkg.build_type = BuildType.noarch then pstr "noarch" else pstr "linux-64"

/-- `is_package_built` from `build_locally.py`. `fs` maps a subdirectory
name to its filenames (`none` when the subdirectory does not exist). -/
def is_package_built (pkg : Package) (fs : PyStr → Option (List PyStr))
    (variant_count : Nat) : Bool :=
  match fs (platform_subdir pkg) with
  | none => false
  | some files =>
    let ms := files.filter (fun f => matches_artifact pkg.name f)
    if pkg.build_type = BuildType.variant then decide (variant_count ≤ ms.length)
    else decide (1 ≤ ms.length)

/-- The displayed package list of `interactive_select`: grouped by strategy
in the fixed order noarch, variant, standard, each group in discovery
order; 1-based display indices enumerate this list. -/
def displayList (ps : List Package) : List Package :=
  ps.filter (fun p => p.build_type = BuildType.noarch) ++
    ps.filter (fun p => p.build_type = BuildType.variant) ++
      ps.filter (fun p => p.build_type = BuildType.standard)

/-- One comma-separated part of a selection, as parsed by
`parse_selection`: a 1-based index, or an inclusive range `a-b` expanded by
`range(start, end + 1)`; `none` models the `ValueError` from `int()`. -/
def parse_part (p0 : PyStr) : Option (List Int) :=
  let p := pyStrip p0
  if p.contains '-' then
    match splitOnceChar p '-' with
    | some (s, e) =>
      match pyInt s, pyInt e with
      | some a, some b => some (intRange a (b + 1))
      | _, _ => none
    | none => none
  else (pyInt p).map (fun n => [n])

/-- Concatenation of the parsed parts; `none` when any part raises. -/
def parse_parts : List PyStr → Option (List Int)
  | [] => some []
  | p :: ps =>
    match parse_part p, parse_parts ps with
    | some xs, some ys => some (xs ++ ys)
    | _, _ => none

/-- `parse_selection` from `build_locally.py`: split on commas and extend
the index list part by part. -/
def parse_selection (sel : PyStr) : Option (List Int) :=
  parse_parts (pySplitChar sel ',')

/-- Map selection indices to displayed packages (`index_map` lookup): any
index outside `1..n` is the fatal `Invalid index` branch, modelled `none`. -/
def lookupIndices (disp : List Package) : List Int → Option (List Package)
  | [] => some []
  | i :: rest =>
    if 1 ≤ i ∧ i ≤ (disp.length : Int) then
      (lookupIndices disp rest).map
        (fun tl => disp.getD (i.toNat - 1) dummyPackage :: tl)
    else none

/-- Outcome of the interactive selection: `fatal` models `sys.exit(1)`
(empty input or invalid index), `crash` an uncaught `ValueError` from
`int()`, `ok` the returned package list. -/
inductive SelResult where
  | fatal
  | crash
  | ok (selected : List Package)
deriving DecidableEq

/-- The decision core of `interactive_select` from `build_locally.py`,
applied to the raw prompt input. -/
def interactive_select (ps : List Package) (raw : PyStr) : SelResult :=
  let sel := pyStrip raw
  if sel = [] then SelResult.fatal
  else if pyLower sel = pstr "all" then SelResult.ok ps
  else if pyLower sel = pstr "noarch" then
    SelResult.ok (ps.filter (fun p => p.build_type = BuildType.noarch))
  else if pyLower sel = pstr "variant" then
    SelResult.ok (ps.filter (fun p => p.build_type = BuildType.variant))
  else if pyLower sel = pstr "standard" then
    SelResult.ok (ps.filter (fun p => p.build_type = BuildType.standard))
  else
    match parse_selection sel with
    | none => SelResult.crash
    | some ixs =>
      match lookupIndices (displayList ps) ixs with
      | none => SelResult.fatal
      | some out => SelResult.ok out

/-- The `--packages` path of `main`: keep discovered packages whose name is
in the requested set. -/
def select_by_names (packages : List Package) (names : List PyStr) : List Package :=
  packages.filter (fun p => names.contains p.name)

/-- Selection mode of one `build_locally.py` run (`--all`,
`--noarch-only`, `--variant-only`, `--packages ...`, or the interactive
prompt with the given input line). -/
inductive SelMode where
  | all
  | noarchOnly
  | variantOnly
  | byNames (names : List PyStr)
  | interactive (input : PyStr)

/-- Outcome of the decision phase of `main` in `build_locally.py`:
`earlyExit code` is a `sys.exit(code)` before any Docker dispatch,
`crash` an uncaught exception, `dispatch sel` reaching the Docker build
with the final package list. -/
inductive MainOutcome where
  | earlyExit (code : Nat)
  | crash
  | dispatch (selected : List Package)
deriving DecidableEq

/-- The decision phase of `main` in `build_locally.py`: the no-packages
exit, selection, the empty-selection exit, and (without `--clean`) the
skip of already-built packages with the all-built exit. -/
def build_locally_decide (packages : List Package) (mode : SelMode) (clean : Bool)
    (fs : PyStr → Option (List PyStr)) (variant_count : Nat) : MainOutcome :=
  if packages = [] then MainOutcome.earlyExit 1
  else
    let selRes : SelResult :=
      match mode with
      | SelMode.all => SelResult.ok packages
      | SelMode.noarchOnly =>
        SelResult.ok (packages.filter (fun p => p.build_type = BuildType.noarch))
      | SelMode.variantOnly =>
        SelResult.ok (packages.filter (fun p => p.build_type = BuildType.variant))
      | SelMode.byNames names =>
        let sel := select_by_names packages names
        if names.all (fun n => (sel.map Package.name).contains n) then SelResult.ok sel
        else SelResult.fatal
      | SelMode.interactive input => interactive_select packages input
    match selRes with
    | SelResult.fatal => MainOutcome.earlyExit 1
    | SelResult.crash => MainOutcome.crash
    | SelResult.ok selected =>
      if selected = [] then MainOutcome.earlyExit 0
      else if clean then MainOutcome.dispatch selected
      else
        let to_build := selected.filter (fun p => !is_package_built p fs variant_count)
        if to_build = [] then MainOutcome.earlyExit 0
        else MainOutcome.dispatch to_build

/-- A local artifact file as enumerated by `find_packages`: the platform
subdirectory it sits in and its filename. -/
structure LocalArtifact where
  parent : PyStr
  name : PyStr
deriving DecidableEq

/-- `filter_new_packages` from `scripts/upload_to_prefix.py`: partition the
local artifacts into those absent from the remote manifest of their own
subdirectory (new) and those present (skipped), preserving order. -/
def filter_new_packages : List LocalArtifact → (PyStr → List PyStr) →
    List LocalArtifact × List LocalArtifact
  | [], _ => ([], [])
  | p :: rest, remote =>
    let pr := filter_new_packages rest remote
    if (remote p.parent).contains p.name then (pr.1, p :: pr.2)
    else (p :: pr.1, pr.2)

/-- The diff step of `main` in `scripts/upload_to_prefix.py`: with `force`
the diff is skipped and every local artifact is attempted, otherwise only
the new ones are. -/
def packages_to_upload (force : Bool) (pkgs : List LocalArtifact)
    (remote : PyStr → List PyStr) : List LocalArtifact :=
  if force then pkgs else (filter_new_packages pkgs remote).1

/-- The early gate of `main` in `scripts/upload_to_prefix.py` under
`--all`: a missing output directory exits 1, an empty artifact set exits 1,
otherwise the run proceeds (`none`). -/
def upload_cli_gate (outputDirExists : Bool) (found : List LocalArtifact) : Option Nat :=
  if outputDirExists = false then some 1
  else if found = [] then some 1
  else none

/-- One artifact as seen by `upload_package` in
`scripts/upload_to_prefix.py`, together with the behaviour of its upload
request: `status = some n` is an HTTP response `n`, `none` a timeout or
request exception. -/
structure UploadCandidate where
  present : Bool
  suffix : PyStr
  size : Nat
  status : Option Nat
deriving DecidableEq

/-- `upload_package` from `scripts/upload_to_prefix.py`: missing file,
unrecognized extension, the 100 MiB ceiling, and any response other than
status 200 (including 409 and network errors) all return `false`; `force`
only alters the request query string, not the outcome handling. -/
def upload_package (a : UploadCandidate) (force : Bool) : Bool :=
  if a.present = false then false
  else if ¬(a.suffix = pstr ".conda" ∨ a.suffix = pstr ".bz2") then false
  else if 100 * 1024 * 1024 < a.size then false
  else
    match a.status with
    | some n => if n = 200 then true else false
    | none => false

/-- The upload loop of `main` in `scripts/upload_to_prefix.py`: the
(success, failed) tally over the whole batch. -/
def upload_run (arts : List UploadCandidate) (force : Bool) : Nat × Nat :=
  arts.foldl
    (fun acc a => if upload_package a force then (acc.1 + 1, acc.2) else (acc.1, acc.2 + 1))
    (0, 0)

/-- Exit status of the upload run: 1 when the failed tally is positive,
0 otherwise. -/
def upload_exit_code (arts : List UploadCandidate) (force : Bool) : Nat :=
  if 0 < (upload_run arts force).2 then 1 else 0

/-- Shorthand for concrete example packages. -/
def mkPkg (n : String) (t : BuildType) : Package := ⟨pstr n, pstr n, t⟩

/-- Ten standard packages, displayed as indices 1 to 10. -/
def tenPkgs : List Package :=
  [mkPkg "p01" BuildType.standard, mkPkg "p02" BuildType.standard,
   mkPkg "p03" BuildType.standard, mkPkg "p04" BuildType.standard,
   mkPkg "p05" BuildType.standard, mkPkg "p06" BuildType.standard,
   mkPkg "p07" BuildType.standard, mkPkg "p08" BuildType.standard,
   mkPkg "p09" BuildType.standard, mkPkg "p10" BuildType.standard]

/-- Two standard example packages in discovery order. -/
def pkgA : Package := mkPkg "alpha" BuildType.standard

/-- Second standard example package. -/
def pkgB : Package := mkPkg "beta" BuildType.standard

/-- Local artifact `linux-64/a.conda`. -/
def exA : LocalArtifact := ⟨pstr "linux-64", pstr "a.conda"⟩

/-- Local artifact `linux-64/b.conda`. -/
def exB : LocalArtifact := ⟨pstr "linux-64", pstr "b.conda"⟩

/-- A remote manifest whose `linux-64` subdirectory holds only `a.conda`. -/
def exRemote : PyStr → List PyStr :=
  fun s => if s = pstr "linux-64" then [pstr "a.conda"] else []

/-- An existing small artifact with an unrecognized extension whose request
would succeed. -/
def badExtArtifact : UploadCandidate := ⟨true, pstr ".txt", 10, some 200⟩

/-- An existing small conda artifact answered with HTTP 409. -/
def conflictArtifact : UploadCandidate := ⟨true, pstr ".conda", 10, some 409⟩

/-- A variant unit named `cumm`. -/
def vPkg : Package := ⟨pstr "cumm", pstr "pkgs/cumm/recipe", BuildType.variant⟩

/-- A standard unit named `spconv`. -/
def sPkg : Package := ⟨pstr "spconv", pstr "pkgs/spconv/recipe", BuildType.standard⟩

/-- Output tree whose `linux-64` subdirectory holds three artifacts of
`cumm` and one of another unit. -/
def fsThree : PyStr → Option (List PyStr) :=
  fun s =>
    if s = pstr "linux-64" then
      some [pstr "cumm-1.0-h0.conda", pstr "cumm-1.1-h0.conda",
        pstr "cumm-1.2-h0.conda", pstr "other-1.0-h0.conda"]
    else none

/-- Output tree whose `linux-64` subdirectory holds four artifacts of
`cumm`. -/
def fsFour : PyStr → Option (List PyStr) :=
  fun s =>
    if s = pstr "linux-64" then
      some [pstr "cumm-1.0-h0.conda", pstr "cumm-1.1-h0.conda",
        pstr "cumm-1.2-h0.conda", pstr "cumm-1.3-h0.conda"]
    else none

/-- Output tree whose `linux-64` subdirectory holds exactly one artifact of
`spconv`. -/
def fsOne : PyStr → Option (List PyStr) :=
  fun s => if s = pstr "linux-64" then some [pstr "spconv-2.0-h0.conda"] else none

/-- A variants configuration with a three-item axis, a comment, a blank
line, and a two-item axis. -/
def exampleVariantsDoc : List PyStr :=
  [pstr "# variant axes", pstr "axis_a:", pstr "  - a1", pstr "  - a2",
   pstr "  - a3", pstr "", pstr "axis_b:", pstr "  - b1", pstr "  - b2"]

/-- A recipe carrying both the indented `noarch:` field and the
`cuda_version` marker. -/
def bothMarkersDoc : List PyStr :=
  [pstr "build:", pstr "  noarch: python", pstr "  cuda_version: 12.4"]

theorem variantLoop_append (lines : List PyStr) :
    ∀ (lists : List Nat) (cur : Nat),
      variantLoop lines lists cur = lists ++ variantLoop lines [] cur := by
  induction lines with
  | nil =>
    intro lists cur
    by_cases h : 0 < cur <;> simp [variantLoop, h]
  | cons line rest ih =>
    intro lists cur
    by_cases h1 : isCommentOrBlank (pyStrip line)
    · simp only [variantLoop, h1, if_true]
      exact ih lists cur
    · by_cases h2 : isItemLine (pyStrip line)
      · simp only [variantLoop, h1, h2, if_true, if_false, Bool.false_eq_true]
        exact ih lists (cur + 1)
      · by_cases h3 : (pstr ":").isSuffixOf (pyStrip line)
        · simp only [variantLoop, h1, h2, h3, if_true, if_false, Bool.false_eq_true]
          by_cases h : 0 < cur
          · simp only [h, if_true]
            rw [ih (lists ++ [cur]) 0, ih ([] ++ [cur]) 0]
            simp [List.append_assoc]
          · simp only [h, if_false]
            rw [ih lists 0]
        · simp only [variantLoop, h1, h2, h3, if_false, Bool.false_eq_true]
          exact ih lists cur

theorem effLines_cons (line : PyStr) (rest : List PyStr) :
    effLines (line :: rest) =
      if isCommentOrBlank (pyStrip line) then effLines rest
      else pyStrip line :: effLines rest := by
  by_cases h : isCommentOrBlank (pyStrip line) <;>
    simp [effLines, List.filter_cons, h]

theorem variantLoop_spec (lines : List PyStr) :
    ∀ cur : Nat,
      variantLoop lines [] cur =
        ((cur + segItemCount (splitAxesCore (effLines lines)).1) ::
          (splitAxesCore (effLines lines)).2.map segItemCount).filter (fun n => 0 < n) := by
  induction lines with
  | nil =>
    intro cur
    by_cases h : 0 < cur <;>
      simp [variantLoop, effLines, splitAxesCore, segItemCount, List.filter, h]
  | cons line rest ih =>
    intro cur
    by_cases h1 : isCommentOrBlank (pyStrip line)
    · simp only [variantLoop, h1, if_true, effLines_cons]
      exact ih cur
    · by_cases h2 : isItemLine (pyStrip line)
      · have hnh : isHeaderLine (pyStrip line) = false := by
          simp [isHeaderLine, h2]
        simp only [variantLoop, h1, h2, if_true, if_false, Bool.false_eq_true,
          effLines_cons, splitAxesCore, hnh]
        rw [ih (cur + 1)]
        have hc : segItemCount (pyStrip line :: (splitAxesCore (effLines rest)).1) =
            segItemCount (splitAxesCore (effLines rest)).1 + 1 := by
          simp [segItemCount, List.filter_cons, h2]
        rw [hc]
        have : cur + (segItemCount (splitAxesCore (effLines rest)).1 + 1) =
            cur + 1 + segItemCount (splitAxesCore (effLines rest)).1 := by omega
        rw [this]
      · by_cases h3 : (pstr ":").isSuffixOf (pyStrip line)
        · have hh : isHeaderLine (pyStrip line) = true := by
            simp [isHeaderLine, h2, h3]
          simp only [variantLoop, h1, h2, h3, if_true, if_false, Bool.false_eq_true,
            effLines_cons, splitAxesCore, hh]
          rw [variantLoop_append rest, ih 0]
          simp only [Nat.zero_add, Nat.add_zero, segItemCount, List.filter_nil,
            List.length_nil, List.filter_cons, List.map_cons]
          by_cases h : 0 < cur <;> simp [h]
        · have hnh : isHeaderLine (pyStrip line) = false := by
            simp [isHeaderLine, h2, h3]
          simp only [variantLoop, h1, h2, h3, if_false, Bool.false_eq_true,
            effLines_cons, splitAxesCore, hnh]
          rw [ih cur]
          have hc : segItemCount (pyStrip line :: (splitAxesCore (effLines rest)).1) =
              segItemCount (splitAxesCore (effLines rest)).1 := by
            simp [segItemCount, List.filter_cons, h2]
          rw [hc]

theorem lookupIndices_all_valid (disp : List Package) :
    ∀ ixs : List Int,
      (∀ i ∈ ixs, 1 ≤ i ∧ i ≤ (disp.length : Int)) →
      lookupIndices disp ixs =
        some (ixs.map (fun i => disp.getD (i.toNat - 1) dummyPackage)) := by
  intro ixs
  induction ixs with
  | nil => intro _; rfl
  | cons i rest ih =>
    intro h
    have hi := h i (List.mem_cons_self i rest)
    have hrest : ∀ j ∈ rest, 1 ≤ j ∧ j ≤ (disp.length : Int) :=
      fun j hj => h j (List.mem_cons_of_mem i hj)
    simp only [lookupIndices, if_pos hi, ih hrest]
    rfl

theorem lookupIndices_none (disp : List Package) :
    ∀ (ixs : List Int) (i : Int), i ∈ ixs →
      ¬(1 ≤ i ∧ i ≤ (disp.length : Int)) →
      lookupIndices disp ixs = none := by
  intro ixs
  induction ixs with
  | nil => intro i h; cases h
  | cons j rest ih =>
    intro i hmem hbad
    rcases List.mem_cons.mp hmem with h | h
    · subst h
      simp only [lookupIndices, if_neg hbad]
    · by_cases hj : 1 ≤ j ∧ j ≤ (disp.length : Int)
      · simp only [lookupIndices, if_pos hj, ih i h hbad]
        rfl
      · simp only [lookupIndices, if_neg hj]

theorem countP_bool_split {α : Type} (p : α → Bool) (l : List α) :
    l.countP p + l.countP (fun a => !p a) = l.length := by
  induction l with
  | nil => simp
  | cons a t ih =>
    by_cases h : p a <;> simp [List.countP_cons, h] <;> omega

theorem upload_run_loop (force : Bool) :
    ∀ (arts : List UploadCandidate) (s f : Nat),
      arts.foldl
        (fun acc a =>
          if upload_package a force then (acc.1 + 1, acc.2) else (acc.1, acc.2 + 1))
        (s, f) =
      (s + arts.countP (fun a => upload_package a force),
       f + arts.countP (fun a => !upload_package a force)) := by
  intro arts
  induction arts with
  | nil => intro s f; simp
  | cons a rest ih =>
    intro s f
    by_cases h : upload_package a force <;>
      simp [List.foldl_cons, h, ih, List.countP_cons] <;> omega

theorem upload_run_eq (arts : List UploadCandidate) (force : Bool) :
    upload_run arts force =
      (arts.countP (fun a => upload_package a force),
       arts.countP (fun a => !upload_package a force)) := by
  simpa using upload_run_loop force arts 0 0

/-- C7: for every variant configuration document, `get_variant_count`
returns the product of the per-axis item counts — blank and comment lines
ignored, a colon-terminated line starting a new axis, a list-item line
adding one to the current axis, zero-item axes excluded from the product —
an absent file yields exactly 1, a three-item axis crossed with a two-item
axis yields 6, and re-parsing identical input yields the identical
integer. -/
theorem C7_variant_counter :
    (∀ doc, get_variant_count doc = spec_variant_count doc) ∧
    get_variant_count none = 1 ∧
    get_variant_count (some exampleVariantsDoc) = 6 ∧
    (∀ doc, get_variant_count doc = get_variant_count doc) := by
  refine ⟨?_, rfl, by decide, fun _ => rfl⟩
  intro doc
  cases doc with
  | none => rfl
  | some lines =>
    show (variantLoop lines [] 0).foldl (· * ·) 1 = _
    rw [variantLoop_spec lines 0]
    simp [spec_variant_count, splitAxes]

/-- C8: classification of a recipe document is a deterministic function of
its literal content applying the fixed priority order — an indentation-
nested `noarch:` build field yields noarch even when a `cuda_version`
variant marker is also present, a `cuda_version` marker without the noarch
field yields variant, and otherwise the unit is standard — and it is total
(never crashes). -/
theorem C8_classification :
    ∀ lines : List PyStr,
      (hasNoarchMarker lines = true → detect_build_type lines = BuildType.noarch) ∧
      (hasNoarchMarker lines = false → hasCudaMarker lines = true →
        detect_build_type lines = BuildType.variant) ∧
      (hasNoarchMarker lines = false → hasCudaMarker lines = false →
        detect_build_type lines = BuildType.standard) := by
  intro lines
  refine ⟨fun h => ?_, fun h hc => ?_, fun h hc => ?_⟩ <;>
    simp [detect_build_type, *]

/-- C8 witness: on a recipe carrying both the `noarch:` build field and the
`cuda_version` marker, classification picks noarch. -/
theorem C8_witness :
    detect_build_type bothMarkersDoc = BuildType.noarch ∧
    hasCudaMarker bothMarkersDoc = true :=
  ⟨(C8_classification bothMarkersDoc).1 (by decide), by decide⟩

/-- C2: the ChannelSync diff partitions local artifacts into new (filename
absent from the remote manifest of the artifact's own platform
subdirectory) and skipped (filename present), both in order; local
`a.conda, b.conda` against a remote manifest holding `a.conda` yields
new `b.conda` and skipped `a.conda`; and with `force` set the diff is
bypassed and every local artifact is attempted. -/
theorem C2_channel_diff :
    (∀ (pkgs : List LocalArtifact) (remote : PyStr → List PyStr),
      filter_new_packages pkgs remote =
        (pkgs.filter (fun p => !(remote p.parent).contains p.name),
         pkgs.filter (fun p => (remote p.parent).contains p.name))) ∧
    filter_new_packages [exA, exB] exRemote = ([exB], [exA]) ∧
    (∀ (pkgs : List LocalArtifact) (remote : PyStr → List PyStr),
      packages_to_upload true pkgs remote = pkgs) := by
  refine ⟨?_, by decide, fun pkgs remote => rfl⟩
  intro pkgs remote
  induction pkgs with
  | nil => rfl
  | cons p rest ih =>
    by_cases hc : p.name ∈ remote p.parent <;>
      simp [filter_new_packages, List.filter_cons, hc, ih]

/-- C1: completion checking returns false immediately when the
strategy-resolved platform subdirectory does not exist; otherwise it counts
artifacts whose filename is the unit name, a dash, anything, and the
`.conda` archive extension, and reports a variant unit complete exactly
when that count reaches the expected variant cardinality while noarch and
standard units are complete exactly when it reaches 1; a variant unit with
cardinality 4 and 3 matching artifacts is incomplete, with 4 complete, and
a standard unit with one matching artifact is complete. -/
theorem C1_completion_oracle :
    (∀ n f : PyStr, matches_artifact n f = true ↔
      ∃ mid, f = n ++ '-' :: (mid ++ pstr ".conda")) ∧
    (∀ (pkg : Package) (fs : PyStr → Option (List PyStr)) (vc : Nat),
      (fs (platform_subdir pkg) = none → is_package_built pkg fs vc = false) ∧
      (∀ files, fs (platform_subdir pkg) = some files →
        (is_package_built pkg fs vc = true ↔
          (if pkg.build_type = BuildType.variant then vc else 1) ≤
            (files.filter (fun f => matches_artifact pkg.name f)).length))) ∧
    is_package_built vPkg fsThree 4 = false ∧
    is_package_built vPkg fsFour 4 = true ∧
    is_package_built sPkg fsOne 4 = true := by
  refine ⟨?_, ?_, by decide, by decide, by decide⟩
  · intro n f
    constructor
    · intro h
      simp only [matches_artifact, Bool.and_eq_true, List.isPrefixOf_iff_prefix,
        List.isSuffixOf_iff_suffix] at h
      obtain ⟨⟨t, ht⟩, hs⟩ := h
      have hdrop : f.drop (n.length + 1) = t := by
        rw [← ht, List.drop_left']
        simp
      rw [hdrop] at hs
      obtain ⟨mid, hmid⟩ := hs
      refine ⟨mid, ?_⟩
      rw [← ht, ← hmid]
      simp
    · rintro ⟨mid, rfl⟩
      simp only [matches_artifact, Bool.and_eq_true, List.isPrefixOf_iff_prefix,
        List.isSuffixOf_iff_suffix]
      have hform : n ++ '-' :: (mid ++ pstr ".conda") =
          (n ++ ['-']) ++ (mid ++ pstr ".conda") := by simp
      constructor
      · exact ⟨mid ++ pstr ".conda", hform.symm⟩
      · rw [hform, List.drop_left']
        · exact ⟨mid, rfl⟩
        · simp
  · intro pkg fs vc
    constructor
    · intro h
      simp [is_package_built, h]
    · intro files h
      simp only [is_package_built, h]
      by_cases hb : pkg.build_type = BuildType.variant <;> simp [hb]

/-- C1 witness: a unit whose platform subdirectory is absent is reported
not built. -/
theorem C1_witness :
    is_package_built vPkg (fun _ => none) 4 = false :=
  (C1_completion_oracle.2.1 vPkg (fun _ => none) 4).1 rfl

/-- C3 counterexample: a batch whose sole artifact exists, is small and
would be accepted remotely, but has an unrecognized extension, is skipped
by `upload_package` yet tallied as failed, so the run exits with status 1
although no artifact actually failed to upload — against the claim that
extension-skipped artifacts are not counted as failed and the exit status
is a failure only when an actual upload failed. -/
theorem C3_counterexample :
    upload_package badExtArtifact false = false ∧
    upload_exit_code [badExtArtifact] false = 1 ∧
    upload_exit_code [badExtArtifact] false ≠ 0 ∧
    badExtArtifact.present = true ∧
    badExtArtifact.suffix ≠ pstr ".conda" ∧
    badExtArtifact.suffix ≠ pstr ".bz2" ∧
    badExtArtifact.size ≤ 100 * 1024 * 1024 ∧
    badExtArtifact.status = some 200 := by
  refine ⟨rfl, rfl, by decide, rfl, by decide, by decide, by decide, rfl⟩

/-- C3 amended: an artifact with an unrecognized extension or exceeding the
100 MiB ceiling is skipped from uploading but its `upload_package` call
returns unsuccessful and is tallied as failed; the batch never aborts
early — every artifact is processed and successes plus failures equal the
batch size — and the run exits with failure status exactly when at least
one artifact returned unsuccessful (actual upload failure, skip, or
already-exists response alike). -/
theorem C3_amended_batch :
    ∀ (arts : List UploadCandidate) (force : Bool),
      (upload_run arts force).1 + (upload_run arts force).2 = arts.length ∧
      (upload_exit_code arts force = 1 ↔
        ∃ a ∈ arts, upload_package a force = false) ∧
      (∀ a : UploadCandidate, a.present = true →
        a.suffix ≠ pstr ".conda" → a.suffix ≠ pstr ".bz2" →
        upload_package a force = false) ∧
      (∀ a : UploadCandidate, 100 * 1024 * 1024 < a.size →
        upload_package a force = false) := by
  intro arts force
  refine ⟨?_, ?_, ?_, ?_⟩
  · rw [upload_run_eq]
    exact countP_bool_split (fun a => upload_package a force) arts
  · have hiff : 0 < arts.countP (fun a => !upload_package a force) ↔
        ∃ a ∈ arts, upload_package a force = false := by
      rw [List.countP_pos_iff]
      constructor
      · rintro ⟨a, ha, hfa⟩
        exact ⟨a, ha, by simpa using hfa⟩
      · rintro ⟨a, ha, hfa⟩
        exact ⟨a, ha, by simp [hfa]⟩
    rw [upload_exit_code, upload_run_eq]
    by_cases h : 0 < arts.countP (fun a => !upload_package a force)
    · rw [if_pos h]
      exact iff_of_true rfl (hiff.mp h)
    · rw [if_neg h]
      exact iff_of_false (by decide) (fun hex => h (hiff.mpr hex))
  · intro a hp h1 h2
    have hs : ¬(a.suffix = pstr ".conda" ∨ a.suffix = pstr ".bz2") := by
      intro h; rcases h with h | h
      · exact h1 h
      · exact h2 h
    simp [upload_package, hp, hs]
  · intro a hz
    by_cases hp : a.present = false
    · simp [upload_package, hp]
    · by_cases hs : a.suffix = pstr ".conda" ∨ a.suffix = pstr ".bz2"
      · simp [upload_package, hp, hs, hz]
      · simp [upload_package, hp, hs]

/-- C3 witness: the amended batch law applied to an empty batch, to a
concrete extension-skipped artifact, and to a concrete oversized conda
artifact. -/
theorem C3_witness :
    (upload_run [] true).1 + (upload_run [] true).2 = 0 ∧
    upload_package ⟨true, pstr ".whl", 5, some 200⟩ true = false ∧
    upload_package ⟨true, pstr ".conda", 200 * 1024 * 1024, some 200⟩ true = false :=
  ⟨(C3_amended_batch [] true).1,
   (C3_amended_batch [] true).2.2.1 ⟨true, pstr ".whl", 5, some 200⟩ rfl
     (by decide) (by decide),
   (C3_amended_batch [] true).2.2.2 ⟨true, pstr ".conda", 200 * 1024 * 1024, some 200⟩
     (by decide)⟩

/-- C4 counterexample: with `force` unset, an existing small conda artifact
answered with HTTP 409 makes `upload_package` return unsuccessful and the
run exit with status 1 — against the claim that a 409 response must not
contribute to the failure count that makes the run exit with a failure
status. -/
theorem C4_counterexample :
    conflictArtifact.status = some 409 ∧
    upload_package conflictArtifact false = false ∧
    upload_exit_code [conflictArtifact] false = 1 ∧
    upload_exit_code [conflictArtifact] false ≠ 0 := by
  refine ⟨rfl, rfl, rfl, by decide⟩

/-- C4 amended: an HTTP 409 response is reported as already-exists but is
treated as an upload failure (it returns unsuccessful and so contributes
to the failure count and failure exit status); an upload succeeds exactly
when the file exists, has a recognized package-archive extension, is
within the 100 MiB ceiling, and the response status is exactly 200 — any
other status, 409 included, is a failure. -/
theorem C4_amended_status :
    ∀ (a : UploadCandidate) (force : Bool),
      (a.status = some 409 → upload_package a force = false) ∧
      (upload_package a force = true ↔
        (a.present = true ∧ (a.suffix = pstr ".conda" ∨ a.suffix = pstr ".bz2") ∧
          a.size ≤ 100 * 1024 * 1024 ∧ a.status = some 200)) := by
  intro a force
  constructor
  · intro h
    by_cases hp : a.present = false
    · simp [upload_package, hp]
    · by_cases hs : a.suffix = pstr ".conda" ∨ a.suffix = pstr ".bz2"
      · by_cases hz : 100 * 1024 * 1024 < a.size
        · simp [upload_package, hp, hs, hz]
        · simp [upload_package, hp, hs, hz, h]
      · simp [upload_package, hp, hs]
  · by_cases hp : a.present = false
    · simp [upload_package, hp]
    · have hp' : a.present = true := by
        cases hpre : a.present
        · exact absurd hpre hp
        · rfl
      by_cases hs : a.suffix = pstr ".conda" ∨ a.suffix = pstr ".bz2"
      · by_cases hz : 100 * 1024 * 1024 < a.size
        · simp [upload_package, hp, hs, hz]
        · cases hst : a.status with
          | none => simp [upload_package, hp, hs, hz, hst, hp']
          | some n =>
            by_cases hn : n = 200
            · subst hn
              simp [upload_package, hp, hs, hz, hst, hp']
              omega
            · simp [upload_package, hp, hs, hz, hst, hp', hn]
      · simp [upload_package, hp, hs, hp']

/-- C4 witness: the amended status law applied to a concrete 409
response. -/
theorem C4_witness :
    upload_package ⟨true, pstr ".bz2", 0, some 409⟩ true = false :=
  (C4_amended_status ⟨true, pstr ".bz2", 0, some 409⟩ true).1 rfl

/-- C5 counterexample: the interactive numeric selection `2,1,1` over two
displayed units returns the second unit, then the first twice — a list
with a repeated unit, out of discovery order — against the claim that
every selection resolves to a deduplicated list in discovery order. -/
theorem C5_counterexample :
    interactive_select [pkgA, pkgB] (pstr "2,1,1") = SelResult.ok [pkgB, pkgA, pkgA] ∧
    ¬ List.Nodup [pkgB, pkgA, pkgA] := by
  refine ⟨by decide, by decide⟩

/-- C5 amended: the `all`, strategy-category and explicit-name selections
are sublists of the discovery list (so they preserve discovery order and
introduce no duplicates) — the `all` keyword and the `--all` mode resolve
to the full discovery list itself — but the interactive numeric selection
returns the displayed unit of each named index in the order the indices
are named, with repetitions preserved and no deduplication — naming index
2 then 1 then 1 yields the second unit followed by the first twice. -/
theorem C5_amended_selection :
    (∀ (ps : List Package) (names : List PyStr),
      (select_by_names ps names).Sublist ps) ∧
    (∀ (ps : List Package) (names : List PyStr),
      ps.Nodup → (select_by_names ps names).Nodup) ∧
    (∀ (ps : List Package) (t : BuildType),
      (ps.filter (fun p => p.build_type = t)).Sublist ps) ∧
    (∀ (ps : List Package) (raw : PyStr),
      pyStrip raw ≠ [] → pyLower (pyStrip raw) = pstr "all" →
      interactive_select ps raw = SelResult.ok ps) ∧
    (∀ (ps : List Package) (fs : PyStr → Option (List PyStr)) (vc : Nat),
      ps ≠ [] →
      build_locally_decide ps SelMode.all true fs vc = MainOutcome.dispatch ps) ∧
    (∀ (ps : List Package) (raw : PyStr) (ixs : List Int),
      pyStrip raw ≠ [] →
      pyLower (pyStrip raw) ≠ pstr "all" →
      pyLower (pyStrip raw) ≠ pstr "noarch" →
      pyLower (pyStrip raw) ≠ pstr "variant" →
      pyLower (pyStrip raw) ≠ pstr "standard" →
      parse_selection (pyStrip raw) = some ixs →
      (∀ i ∈ ixs, 1 ≤ i ∧ i ≤ ((displayList ps).length : Int)) →
      interactive_select ps raw =
        SelResult.ok
          (ixs.map (fun i => (displayList ps).getD (i.toNat - 1) dummyPackage))) ∧
    interactive_select [pkgA, pkgB] (pstr "2,1,1") = SelResult.ok [pkgB, pkgA, pkgA] := by
  refine ⟨?_, ?_, ?_, ?_, ?_, ?_, by decide⟩
  · intro ps names
    exact List.filter_sublist ps
  · intro ps names h
    exact (List.filter_sublist ps).nodup h
  · intro ps t
    exact List.filter_sublist ps
  · intro ps raw h0 h1
    simp only [interactive_select]
    rw [if_neg h0, if_pos h1]
  · intro ps fs vc h
    simp [build_locally_decide, h]
  · intro ps raw ixs h0 h1 h2 h3 h4 hp hv
    simp only [interactive_select, if_neg h0, if_neg h1, if_neg h2, if_neg h3, if_neg h4,
      hp, lookupIndices_all_valid (displayList ps) ixs hv]

/-- C5 witness: the numeric law applied to the concrete in-range selection
`1,2` over two displayed units, and the keyword law applied to the
concrete input `all`. -/
theorem C5_witness :
    interactive_select [pkgA, pkgB] (pstr "1,2") = SelResult.ok [pkgA, pkgB] ∧
    interactive_select [pkgA, pkgB] (pstr "all") = SelResult.ok [pkgA, pkgB] := by
  constructor
  · have h := C5_amended_selection.2.2.2.2.2.1 [pkgA, pkgB] (pstr "1,2") [1, 2]
      (by decide) (by decide) (by decide) (by decide) (by decide) (by decide) (by decide)
    rw [h]
    decide
  · exact C5_amended_selection.2.2.2.1 [pkgA, pkgB] (pstr "all") (by decide) (by decide)

/-- C9: the interactive input `1,3,6-8` against ten displayed units parses
to exactly the indices 1, 3, 6, 7, 8 in that numeric order and selects the
corresponding displayed units; an empty input line is a fatal input error;
and a numeric selection containing an index outside the displayed range is
a fatal input error. -/
theorem C9_interactive_indices :
    (parse_selection (pstr "1,3,6-8") = some [1, 3, 6, 7, 8] ∧
      interactive_select tenPkgs (pstr "1,3,6-8") =
        SelResult.ok [mkPkg "p01" BuildType.standard, mkPkg "p03" BuildType.standard,
          mkPkg "p06" BuildType.standard, mkPkg "p07" BuildType.standard,
          mkPkg "p08" BuildType.standard]) ∧
    (∀ (ps : List Package) (raw : PyStr), pyStrip raw = [] →
      interactive_select ps raw = SelResult.fatal) ∧
    (∀ (ps : List Package) (raw : PyStr) (ixs : List Int) (i : Int),
      pyStrip raw ≠ [] →
      pyLower (pyStrip raw) ≠ pstr "all" →
      pyLower (pyStrip raw) ≠ pstr "noarch" →
      pyLower (pyStrip raw) ≠ pstr "variant" →
      pyLower (pyStrip raw) ≠ pstr "standard" →
      parse_selection (pyStrip raw) = some ixs →
      i ∈ ixs → ¬(1 ≤ i ∧ i ≤ ((displayList ps).length : Int)) →
      interactive_select ps raw = SelResult.fatal) := by
  refine ⟨⟨by decide, by decide⟩, ?_, ?_⟩
  · intro ps raw h
    simp only [interactive_select, h, if_pos]
  · intro ps raw ixs i h0 h1 h2 h3 h4 hp hmem hbad
    simp only [interactive_select, if_neg h0, if_neg h1, if_neg h2, if_neg h3, if_neg h4,
      hp, lookupIndices_none (displayList ps) ixs i hmem hbad]

/-- C9 witness: the fatal cases applied to the concrete empty input and to
the out-of-range index 11 over ten displayed units. -/
theorem C9_witness :
    interactive_select tenPkgs (pstr "") = SelResult.fatal ∧
    interactive_select tenPkgs (pstr "11") = SelResult.fatal := by
  constructor
  · exact C9_interactive_indices.2.1 tenPkgs (pstr "") rfl
  · exact C9_interactive_indices.2.2 tenPkgs (pstr "11") [11] 11 (by decide)
      (by decide) (by decide) (by decide) (by decide) (by decide) (by decide) (by decide)

/-- C10: a range part `a-b` with `a > b` contributes no indices — the
descending range expands through `range(a, b + 1)` to the empty list
rather than raising — and consequently the interactive selection `5-3`
resolves to zero units and the run takes the `No packages selected` clean
exit with status 0 instead of a fatal input error. -/
theorem C10_descending_range :
    (∀ (p0 s e : PyStr) (a b : Int),
      (pyStrip p0).contains '-' = true →
      splitOnceChar (pyStrip p0) '-' = some (s, e) →
      pyInt s = some a → pyInt e = some b → b < a →
      parse_part p0 = some []) ∧
    build_locally_decide [pkgA] (SelMode.interactive (pstr "5-3")) false
      (fun _ => none) 1 = MainOutcome.earlyExit 0 := by
  constructor
  · intro p0 s e a b hc hsplit ha hb hlt
    simp only [parse_part, hc, if_pos, hsplit, ha, hb]
    have hrange : intRange a (b + 1) = [] := by
      have : (b + 1 - a).toNat = 0 := by omega
      simp [intRange, this]
    rw [hrange]
  · rfl

/-- C10 witness: the descending-range law applied to the concrete part
`5-3`. -/
theorem C10_witness : parse_part (pstr "5-3") = some [] :=
  C10_descending_range.1 (pstr "5-3") (pstr "5") (pstr "3") 5 3
    (by decide) (by decide) (by decide) (by decide) (by decide)

/-- C6 counterexample: an empty package tree makes the build run exit with
status 1 (the `No packages found` error path), not status 0 as claimed. -/
theorem C6_counterexample :
    build_locally_decide [] SelMode.all false (fun _ => none) 1 =
      MainOutcome.earlyExit 1 ∧
    MainOutcome.earlyExit 1 ≠ MainOutcome.earlyExit 0 := by
  refine ⟨rfl, by decide⟩

/-- C6 amended: an empty package tree exits with status 1 under the
`No packages found` condition, performing no dispatch, and the upload CLI
exits with status 1 on a missing output directory and also on an empty
artifact set; the genuinely clean conditions are a missing variant-count
configuration (which defaults the cardinality to 1), an empty selection
after category filtering (exit 0), and a selection whose units are all
already built (exit 0) — none of these raise exceptions. -/
theorem C6_amended_exits :
    (∀ (mode : SelMode) (clean : Bool) (fs : PyStr → Option (List PyStr)) (vc : Nat),
      build_locally_decide [] mode clean fs vc = MainOutcome.earlyExit 1) ∧
    get_variant_count none = 1 ∧
    (∀ (ps : List Package) (clean : Bool) (fs : PyStr → Option (List PyStr)) (vc : Nat),
      ps ≠ [] →
      ps.filter (fun p => p.build_type = BuildType.variant) = [] →
      build_locally_decide ps SelMode.variantOnly clean fs vc = MainOutcome.earlyExit 0) ∧
    (∀ (ps : List Package) (fs : PyStr → Option (List PyStr)) (vc : Nat),
      ps ≠ [] →
      (∀ p ∈ ps, is_package_built p fs vc = true) →
      build_locally_decide ps SelMode.all false fs vc = MainOutcome.earlyExit 0) ∧
    (∀ found : List LocalArtifact, upload_cli_gate false found = some 1) ∧
    (∀ outputDirExists : Bool, upload_cli_gate outputDirExists [] = some 1) := by
  refine ⟨?_, rfl, ?_, ?_, fun found => rfl, ?_⟩
  · intro mode clean fs vc
    rfl
  · intro ps clean fs vc h hf
    simp [build_locally_decide, if_neg h, hf]
  · intro ps fs vc h hall
    have hfilter : ps.filter (fun p => !is_package_built p fs vc) = [] := by
      rw [List.filter_eq_nil_iff]
      intro p hp
      simp [hall p hp]
    simp only [build_locally_decide, if_neg h, if_neg h, hfilter, if_pos]
    simp [if_neg h]
  · intro outputDirExists
    cases outputDirExists <;> rfl

/-- C6 witness: the clean-exit laws applied to one concrete standard
package with no variant units and an absent output tree. -/
theorem C6_witness :
    build_locally_decide [pkgA] SelMode.variantOnly false (fun _ => none) 1 =
      MainOutcome.earlyExit 0 :=
  C6_amended_exits.2.2.1 [pkgA] false (fun _ => none) 1 (by decide) (by decide)
